import Mathlib

/-!
Verification of the A2A food-ordering sample (task manager, food agent
tools, host delegation logic) against its natural-language specification.

The Python sources are shallowly embedded as pure Lean functions.
External effects (ECDSA recovery, blockchain RPC, the remote agent
stream) are modelled as explicit oracle parameters / environment records,
so every embedded function is total and executable.  Python exceptions
that escape a function are modelled with `Except`; exceptions that the
source catches are modelled by the value the handler returns.
-/

/-- ASCII lower-casing of a string, mirroring Python's `str.lower()` on the
ASCII data (addresses, category keys, location names) this code handles.
Implemented over `String.data` so that it reduces in the kernel. -/
def lowerStr (s : String) : String :=
  ⟨s.data.map Char.toLower⟩

theorem lowerStr_empty : lowerStr "" = "" := rfl

theorem lowerStr_eq_empty_iff (s : String) : lowerStr s = "" ↔ s = "" := by
  constructor
  · intro h
    cases s with
    | mk data =>
      cases data with
      | nil => rfl
      | cons c cs => simp [lowerStr, String.ext_iff] at h
  · intro h; subst h; rfl

/-- Value of a hexadecimal digit character, as accepted by Python's
`int(x, 16)`. -/
def hexDigitVal (c : Char) : Option Nat :=
  if '0' ≤ c ∧ c ≤ '9' then some (c.toNat - '0'.toNat)
  else if 'a' ≤ c ∧ c ≤ 'f' then some (c.toNat - 'a'.toNat + 10)
  else if 'A' ≤ c ∧ c ≤ 'F' then some (c.toNat - 'A'.toNat + 10)
  else none

def parseHexAux : List Char → Nat → Option Nat
  | [], acc => some acc
  | c :: cs, acc =>
    match hexDigitVal c with
    | none => none
    | some v => parseHexAux cs (acc * 16 + v)

/-- Core of Python's `int(x, 16)` on a plain string of hex digits:
fails (raises `ValueError`) on an empty string or any non-hex character. -/
def parseHex (cs : List Char) : Option Nat :=
  match cs with
  | [] => none
  | _ => parseHexAux cs 0

/-- The task-state enumeration from `common.types.TaskState`. -/
inductive TaskState
  | submitted
  | working
  | inputRequired
  | completed
  | canceled
  | failed
  | unknown
deriving DecidableEq, Repr

namespace ServiceAgent

/-- Embeds `task_manager.py` line 231:
`int(session_id.replace('-', ''), 16) % (2**256)`.
Returns `none` when Python's `int` would raise `ValueError`. -/
def taskUuidOfSession (s : String) : Option Nat :=
  (parseHex (s.data.filter (fun c => c ≠ '-'))).map (fun n => n % 2 ^ 256)

end ServiceAgent

namespace HostAgentM

/-- Embeds `host_agent.py` line 293:
`int(sessionId.replace('-', ''), 16) % (2**256)`.
Returns `none` when Python's `int` would raise `ValueError`. -/
def taskUuidOfSession (s : String) : Option Nat :=
  (parseHex (s.data.filter (fun c => c ≠ '-'))).map (fun n => n % 2 ^ 256)

end HostAgentM

/-- The `auth` sub-object of message metadata: `{address, signature}`.
`none` fields model keys absent from the dict (`dict.get` returns `None`). -/
structure AuthData where
  address : Option String
  signature : Option String
deriving DecidableEq, Repr

/-- The `blockchain.confirmTask` sub-object of message metadata. -/
structure ConfirmTaskData where
  tx_hash : Option String
deriving DecidableEq, Repr

/-- The `blockchain` sub-object of message metadata. -/
structure BlockchainData where
  confirmTask : Option ConfirmTaskData
deriving DecidableEq, Repr

/-- Message metadata as read by the task manager: the two keys it looks
up (`auth` and `blockchain`); `none` models an absent key. -/
structure MsgMetadata where
  auth : Option AuthData
  blockchain : Option BlockchainData
deriving DecidableEq, Repr

/-- The fields of `common.types.Message` the task manager reads. -/
structure MessageData where
  metadata : Option MsgMetadata
deriving DecidableEq, Repr

/-- The fields of `common.types.TaskSendParams` the verifiers read. -/
structure TaskSendParams where
  id : String
  sessionId : String
  message : Option MessageData
deriving DecidableEq, Repr

namespace ServiceAgent

/-- Embeds `AgentTaskManager._validate_signature` (task_manager.py lines
144-199).  `recover` is the oracle for
`Account.recover_message(encode_defunct(text=plaintext), signature=sig)`:
`none` models the call raising, `some a` a recovered address `a`.  The
source wraps everything in `try/except` and returns `(False, msg)` on any
exception, so the embedding is a total function into `Bool × String`. -/
def validate_signature (recover : String → String → Option String)
    (verify_signatures : Bool) (p : TaskSendParams) : Bool × String :=
  if !verify_signatures then (true, "")
  else
    match p.message with
    | none => (false, "No authentication data found in message metadata")
    | some msg =>
      match msg.metadata with
      | none => (false, "No authentication data found in message metadata")
      | some md =>
        match md.auth with
        | none => (false, "No authentication data found in message metadata")
        | some auth =>
          match auth.address with
          | none => (false, "Missing Ethereum address in auth data")
          | some address =>
            if address = "" then (false, "Missing Ethereum address in auth data")
            else
              match auth.signature with
              | none => (false, "Missing signature in auth data")
              | some signature =>
                if signature = "" then (false, "Missing signature in auth data")
                else
                  match recover (address ++ p.sessionId) signature with
                  | none => (false, "Error recovering address from signature")
                  | some recovered =>
                    if lowerStr recovered ≠ lowerStr address then
                      (false, "Signature verification failed")
                    else (true, "")

end ServiceAgent

/-- Builds the `TaskSendParams` carrying a claimed address and signature
in `message.metadata.auth`, as the host agents construct them. -/
def mkAuthParams (address signature sessionId : String) : TaskSendParams :=
  { id := "task-1"
    sessionId := sessionId
    message := some
      { metadata := some
          { auth := some { address := some address, signature := some signature }
            blockchain := none } } }

/-- C5: the numeric on-chain task id is a pure function of the session id
(strip hyphens, parse hex, reduce modulo 2^256), identical in the host's
`confirm_task` and the service agent's blockchain verifier, and the sample
session id maps to the same concrete number on every call. -/
theorem taskUuid_deterministic_and_shared :
    HostAgentM.taskUuidOfSession = ServiceAgent.taskUuidOfSession ∧
    ServiceAgent.taskUuidOfSession "11111111-1111-1111-1111-111111111111" =
      some 22685491128062564230891640495451214097 := by
  constructor
  · rfl
  · decide

/-- Concrete recovery oracle used to witness the signature theorems:
recovers the address for exactly one (plaintext, signature) pair. -/
def recoverTest : String → String → Option String :=
  fun p s => if p = "0xAbsid1" ∧ s = "sg" then some "0xAB" else none

/-- C1: with signature verification enabled and the claimed address and
signature present in the auth metadata, `_validate_signature` succeeds if
and only if the address recovered from the signature over the plaintext
`address ++ sessionId` equals the claimed address case-insensitively.
The two hypotheses are facts of real ECDSA address recovery: a recovered
address never lower-cases to the empty string, and recovery from an empty
signature string raises. -/
theorem validate_signature_iff_recovered_matches
    (recover : String → String → Option String) (addr sig sid : String)
    (hwf : ∀ p s a, recover p s = some a → lowerStr a ≠ "")
    (hempty : ∀ p, recover p "" = none) :
    (ServiceAgent.validate_signature recover true (mkAuthParams addr sig sid)).1 = true ↔
      ∃ r, recover (addr ++ sid) sig = some r ∧ lowerStr r = lowerStr addr := by
  simp only [ServiceAgent.validate_signature, mkAuthParams, Bool.not_true]
  by_cases ha : addr = ""
  · subst ha
    simp only [if_pos rfl]
    constructor
    · intro h; simp at h
    · rintro ⟨r, hr, hl⟩
      exact absurd (by rw [hl]; rfl) (hwf _ _ _ hr)
  · rw [if_neg ha]
    by_cases hs : sig = ""
    · subst hs
      rw [if_pos rfl]
      constructor
      · intro h; simp at h
      · rintro ⟨r, hr, _⟩
        rw [hempty] at hr
        exact Option.noConfusion hr
    · rw [if_neg hs]
      cases hrec : recover (addr ++ sid) sig with
      | none =>
        constructor
        · intro h; simp at h
        · rintro ⟨r, hr, _⟩
          exact Option.noConfusion hr
      | some r =>
        constructor
        · intro h
          refine ⟨r, rfl, ?_⟩
          by_contra hne
          simp [hne] at h
        · rintro ⟨r', hr', hl'⟩
          cases hr'
          simp [hl']

/-- Witness for C1 at a concrete address, signature and session id. -/
theorem validate_signature_iff_witness :
    (ServiceAgent.validate_signature recoverTest true
      (mkAuthParams "0xAb" "sg" "sid1")).1 = true :=
  (validate_signature_iff_recovered_matches recoverTest "0xAb" "sg" "sid1"
    (by
      intro p s a h
      unfold recoverTest at h
      split at h
      · cases h; decide
      · exact Option.noConfusion h)
    (by
      intro p
      unfold recoverTest
      rw [if_neg]
      intro h
      exact absurd h.2 (by decide))).mpr
    ⟨"0xAB", by decide, by decide⟩

/-- The tuple returned by the on-chain `tasks(uuid)` accessor
(task_manager.py lines 242-257). -/
structure OnChainTaskData where
  taskAgent : String
  serviceAgent : String
  isCompleted : Bool
  createdAt : Nat
  lastestCompletedAt : Nat
  payAmount : Nat
deriving DecidableEq, Repr

/-- A transaction receipt as read by the verifier (only `status` is used). -/
structure TxReceipt where
  status : Nat
deriving DecidableEq, Repr

/-- The blockchain environment seen through web3: whether the RPC endpoint
is reachable, and the two remote calls the verifier performs.
`Except.error` models the call raising an exception; `Except.ok none` for
the receipt models a falsy (absent) receipt value. -/
structure ChainEnv where
  connected : Bool
  tasksCall : Nat → Except String OnChainTaskData
  getReceipt : String → Except String (Option TxReceipt)

namespace ServiceAgent

/-- The Solidity zero address, against which the verifier tests task
existence. -/
def zeroAddress : String := "0x0000000000000000000000000000000000000000"

/-- Embeds `AgentTaskManager._validate_blockchain_confirmation`
(task_manager.py lines 201-300).  `agentAddress` models
`self.agent_address` after the `AGENT_ETH_ADDRESS` fallback (`none` /
empty = still unset).  The branch structure follows the source line by
line; the outer `try/except` turns an invalid-hex session id (a
`ValueError` from `int`) into a failure result, and the inner
`try/except` turns exceptions from the two chain calls into success. -/
def validate_blockchain_confirmation (env : ChainEnv) (verify_blockchain : Bool)
    (agentAddress : Option String) (p : TaskSendParams) : Bool × String :=
  if !verify_blockchain then (true, "")
  else
    match p.message with
    | none => (true, "No blockchain confirmation data, skipping validation")
    | some msg =>
      match msg.metadata with
      | none => (true, "No blockchain confirmation data, skipping validation")
      | some md =>
        match md.blockchain with
        | none => (true, "No blockchain confirmation data, skipping validation")
        | some bc =>
          match (bc.confirmTask.getD { tx_hash := none }).tx_hash with
          | none => (false, "Missing blockchain transaction hash")
          | some txh =>
            if txh = "" then (false, "Missing blockchain transaction hash")
            else
              match taskUuidOfSession p.sessionId with
              | none => (false, "Blockchain confirmation validation failed: invalid session id")
              | some uuid =>
                if !env.connected then (false, "Unable to connect to blockchain network")
                else
                  match agentAddress with
                  | none => (true, "Blockchain validation skipped due to missing agent address")
                  | some aaddr =>
                    if aaddr = "" then
                      (true, "Blockchain validation skipped due to missing agent address")
                    else
                      match env.tasksCall uuid with
                      | .error e => (true, "Blockchain validation failed but proceeding: " ++ e)
                      | .ok td =>
                        if td.serviceAgent = "" ∨ td.serviceAgent = zeroAddress then
                          (true, "Blockchain task not found, but allowing task to proceed")
                        else if lowerStr td.serviceAgent ≠ lowerStr aaddr then
                          (false, "Task service agent address mismatch")
                        else
                          match env.getReceipt txh with
                          | .error e => (true, "Blockchain validation failed but proceeding: " ++ e)
                          | .ok none => (false, "Unable to get transaction receipt")
                          | .ok (some rc) =>
                            if rc.status ≠ 1 then (false, "Transaction execution failed")
                            else (true, "")

end ServiceAgent

/-- Builds `TaskSendParams` carrying a blockchain confirmation transaction
hash in `message.metadata.blockchain.confirmTask.tx_hash`, as
`HostAgent.confirm_task` constructs them. -/
def mkBlockchainParams (txHash sessionId : String) : TaskSendParams :=
  { id := "task-1"
    sessionId := sessionId
    message := some
      { metadata := some
          { auth := none
            blockchain := some { confirmTask := some { tx_hash := some txHash } } } } }

/-- A chain environment whose RPC endpoint is unreachable. -/
def disconnectedEnv : ChainEnv :=
  { connected := false
    tasksCall := fun _ => .error "not connected"
    getReceipt := fun _ => .error "not connected" }

/-- C2 counterexample: with a transaction hash present in the blockchain
metadata but the blockchain network unreachable,
`_validate_blockchain_confirmation` returns failure (line 236 of
task_manager.py), so the inability to connect is NOT treated as non-fatal
and the task is not allowed to proceed. -/
theorem validate_blockchain_disconnected_fails :
    ServiceAgent.validate_blockchain_confirmation disconnectedEnv true (some "0xAgent")
      (mkBlockchainParams "0xhash" "11111111-1111-1111-1111-111111111111") =
      (false, "Unable to connect to blockchain network") := by
  decide

/-- C2 amended: exceptions raised by the on-chain calls inside the inner
try block — the `tasks(uuid)` query and the receipt fetch — are swallowed
and the verifier returns success, allowing the task to proceed; but an
unreachable blockchain network (connection failure) makes the verifier
return failure, blocking the task. -/
theorem validate_blockchain_lookup_failure_policy (env : ChainEnv)
    (aaddr txh sid : String) (uuid : Nat)
    (haddr : aaddr ≠ "") (htx : txh ≠ "")
    (huuid : ServiceAgent.taskUuidOfSession sid = some uuid) :
    (env.connected = false →
      ServiceAgent.validate_blockchain_confirmation env true (some aaddr)
        (mkBlockchainParams txh sid) =
        (false, "Unable to connect to blockchain network")) ∧
    (∀ e, env.connected = true → env.tasksCall uuid = .error e →
      (ServiceAgent.validate_blockchain_confirmation env true (some aaddr)
        (mkBlockchainParams txh sid)).1 = true) ∧
    (∀ e td, env.connected = true → env.tasksCall uuid = .ok td →
      td.serviceAgent ≠ "" → td.serviceAgent ≠ ServiceAgent.zeroAddress →
      lowerStr td.serviceAgent = lowerStr aaddr →
      env.getReceipt txh = .error e →
      (ServiceAgent.validate_blockchain_confirmation env true (some aaddr)
        (mkBlockchainParams txh sid)).1 = true) := by
  refine ⟨?_, ?_, ?_⟩
  · intro hconn
    simp [ServiceAgent.validate_blockchain_confirmation, mkBlockchainParams,
      huuid, hconn, htx]
  · intro e hconn hcall
    simp [ServiceAgent.validate_blockchain_confirmation, mkBlockchainParams,
      huuid, hconn, htx, haddr, hcall]
  · intro e td hconn hcall hsa hza hlow hrec
    simp [ServiceAgent.validate_blockchain_confirmation, mkBlockchainParams,
      huuid, hconn, htx, haddr, hcall, hsa, hza, hlow, hrec]

/-- A chain environment that is connected but whose two RPC calls raise. -/
def flakyEnv : ChainEnv :=
  { connected := true
    tasksCall := fun _ => .error "timeout"
    getReceipt := fun _ => .error "timeout" }

/-- Witness for the amended C2 at concrete inputs: with a connected but
flaky chain, an exception from the `tasks(uuid)` query is swallowed and
validation succeeds. -/
theorem validate_blockchain_lookup_failure_policy_witness :
    (ServiceAgent.validate_blockchain_confirmation flakyEnv true (some "0xAgent")
      (mkBlockchainParams "0xhash" "11111111-1111-1111-1111-111111111111")).1 = true :=
  (validate_blockchain_lookup_failure_policy flakyEnv "0xAgent" "0xhash"
    "11111111-1111-1111-1111-111111111111"
    22685491128062564230891640495451214097
    (by decide) (by decide) (by decide)).2.1 "timeout" rfl rfl

/-- An artifact as stored on a task (`common.types.Artifact`; only the
parts payload matters to the store logic, which treats artifacts as
opaque list elements). -/
structure Artifact where
  parts : List String
deriving DecidableEq, Repr

/-- A task status: state plus optional agent message
(`common.types.TaskStatus`). -/
structure TaskStatusR where
  state : TaskState
  message : Option String
deriving DecidableEq, Repr

/-- A task record as held in `InMemoryTaskManager.tasks`
(`common.types.Task`): id, session id, current status and the accumulated
artifact list (`None` until the first artifact batch arrives). -/
structure StoredTask where
  id : String
  sessionId : String
  status : TaskStatusR
  artifacts : Option (List Artifact)
deriving DecidableEq, Repr

/-- The in-memory task store: the dict `self.tasks`, a partial map from
task id to task record.  All mutation in the source is serialized under
`self.lock`, so a store update is modelled as a pure map transformation. -/
def TaskStore := String → Option StoredTask

namespace ServiceAgent

/-- Embeds `AgentTaskManager._update_store` (task_manager.py lines
459-475).  `Except.error` models the raised `ValueError` on an unknown
task id.  On success it returns the new store and the updated task:
status is overwritten and, when an artifact batch is supplied, it is
appended to the task's artifact list (initialised to `[]` if `None`). -/
def update_store (store : TaskStore) (task_id : String) (status : TaskStatusR)
    (artifacts : Option (List Artifact)) : Except String (TaskStore × StoredTask) :=
  match store task_id with
  | none => .error ("Task " ++ task_id ++ " not found")
  | some task =>
    let task' : StoredTask :=
      { task with
        status := status
        artifacts :=
          match artifacts with
          | none => task.artifacts
          | some arts => some (task.artifacts.getD [] ++ arts) }
    .ok (fun k => if k = task_id then some task' else store k, task')

end ServiceAgent

/-- C4: updating a task id that was never inserted into the store always
fails with the not-found error (`ValueError: Task id not found`). -/
theorem update_store_unknown_id_not_found (store : TaskStore) (task_id : String)
    (status : TaskStatusR) (artifacts : Option (List Artifact))
    (h : store task_id = none) :
    ServiceAgent.update_store store task_id status artifacts =
      .error ("Task " ++ task_id ++ " not found") := by
  simp [ServiceAgent.update_store, h]

/-- The empty task store used by the store witnesses. -/
def emptyStore : TaskStore := fun _ => none

/-- Witness for C4: updating the never-inserted id in the empty store
fails with not-found. -/
theorem update_store_unknown_id_not_found_witness :
    ServiceAgent.update_store emptyStore "t-404"
      { state := TaskState.working, message := none } none =
      .error ("Task " ++ "t-404" ++ " not found") :=
  update_store_unknown_id_not_found emptyStore "t-404"
    { state := TaskState.working, message := none } none rfl

/-- C10: a successful `_update_store` preserves the task's identity
fields, overwrites only the status, appends the supplied artifacts after
all previously accumulated ones, and leaves every other id in the store
untouched. -/
theorem update_store_frame (store : TaskStore) (task_id : String)
    (status : TaskStatusR) (arts : List Artifact) (task : StoredTask)
    (h : store task_id = some task) :
    ∃ store' task',
      ServiceAgent.update_store store task_id status (some arts) =
        .ok (store', task') ∧
      task'.id = task.id ∧
      task'.sessionId = task.sessionId ∧
      task'.status = status ∧
      task'.artifacts = some (task.artifacts.getD [] ++ arts) ∧
      store' task_id = some task' ∧
      (∀ k, k ≠ task_id → store' k = store k) := by
  simp only [ServiceAgent.update_store, h]
  exact ⟨_, _, rfl, rfl, rfl, rfl, rfl, by simp, fun k hk => by simp [hk]⟩

/-- A demo task and store used by the store witnesses. -/
def demoTask : StoredTask :=
  { id := "t-1"
    sessionId := "s-1"
    status := { state := TaskState.submitted, message := none }
    artifacts := some [{ parts := ["p0"] }] }

def demoStore : TaskStore := fun k => if k = "t-1" then some demoTask else none

/-- Witness for C10 at a concrete store, task and artifact batch. -/
theorem update_store_frame_witness :
    ∃ store' task',
      ServiceAgent.update_store demoStore "t-1"
        { state := TaskState.working, message := some "m" } (some [{ parts := ["p1"] }]) =
        .ok (store', task') ∧
      task'.id = demoTask.id ∧
      task'.sessionId = demoTask.sessionId ∧
      task'.status = { state := TaskState.working, message := some "m" } ∧
      task'.artifacts = some (demoTask.artifacts.getD [] ++ [{ parts := ["p1"] }]) ∧
      store' "t-1" = some task' ∧
      (∀ k, k ≠ "t-1" → store' k = demoStore k) :=
  update_store_frame demoStore "t-1"
    { state := TaskState.working, message := some "m" } [{ parts := ["p1"] }]
    demoTask (by decide)

/-- Outcome of the `on_send_task` request handler: either a structured
JSON-RPC error response (`JSONRPCResponse(error=InternalError(...))`) or
the successful task-result path. -/
inductive RpcOutcome
  | rpcError (message : String)
  | taskResult (task : StoredTask)
deriving DecidableEq, Repr

namespace ServiceAgent

/-- Embeds `AgentTaskManager.on_send_task` (task_manager.py lines
394-418) down to the two verification gates.  `modalitiesOk` models
`utils.are_modalities_compatible`; `invokeOutcome` models whatever
`upsert_task` + `_invoke` produce on the success path.  A failed
signature or blockchain check is surfaced as a structured RPC error
response, not an exception. -/
def on_send_task (recover : String → String → Option String)
    (verify_signatures verify_blockchain : Bool) (env : ChainEnv)
    (agentAddress : Option String) (modalitiesOk : Bool)
    (invokeOutcome : RpcOutcome) (p : TaskSendParams) : RpcOutcome :=
  if !modalitiesOk then .rpcError "Unsupported output modes"
  else
    match validate_signature recover verify_signatures p with
    | (false, msg) => .rpcError ("Signature verification failed: " ++ msg)
    | (true, _) =>
      match validate_blockchain_confirmation env verify_blockchain agentAddress p with
      | (false, msg) => .rpcError ("Blockchain confirmation validation failed: " ++ msg)
      | (true, _) => invokeOutcome

end ServiceAgent

/-- The ways the auth metadata of a request can be absent or malformed,
or address recovery can throw, as distinguished by
`_validate_signature`. -/
def BadAuth (recover : String → String → Option String) (p : TaskSendParams) : Prop :=
  p.message = none ∨
  (∃ msg, p.message = some msg ∧ msg.metadata = none) ∨
  (∃ msg md, p.message = some msg ∧ msg.metadata = some md ∧ md.auth = none) ∨
  (∃ msg md auth, p.message = some msg ∧ msg.metadata = some md ∧
    md.auth = some auth ∧ (auth.address = none ∨ auth.address = some "")) ∨
  (∃ msg md auth addr, p.message = some msg ∧ msg.metadata = some md ∧
    md.auth = some auth ∧ auth.address = some addr ∧ addr ≠ "" ∧
    (auth.signature = none ∨ auth.signature = some "")) ∨
  (∃ msg md auth addr sig, p.message = some msg ∧ msg.metadata = some md ∧
    md.auth = some auth ∧ auth.address = some addr ∧ addr ≠ "" ∧
    auth.signature = some sig ∧ sig ≠ "" ∧
    recover (addr ++ p.sessionId) sig = none)

/-- C8: whenever the auth metadata is absent or malformed (missing auth
object, missing or empty address or signature) or address recovery
throws, `_validate_signature` fails by returning an error value — the
source's `try/except` makes it total, which the embedding reflects — and
`on_send_task` surfaces the failure as a structured RPC error response
rather than an exception. -/
theorem bad_auth_yields_rpc_error (recover : String → String → Option String)
    (verify_blockchain : Bool) (env : ChainEnv) (agentAddress : Option String)
    (invokeOutcome : RpcOutcome) (p : TaskSendParams)
    (hbad : BadAuth recover p) :
    (ServiceAgent.validate_signature recover true p).1 = false ∧
    ∃ m, ServiceAgent.on_send_task recover true verify_blockchain env
        agentAddress true invokeOutcome p =
        .rpcError ("Signature verification failed: " ++ m) := by
  have hval : (ServiceAgent.validate_signature recover true p).1 = false := by
    rcases hbad with h | ⟨msg, hm, hmd⟩ | ⟨msg, md, hm, hmd, ha⟩ |
      ⟨msg, md, auth, hm, hmd, ha, haddr⟩ |
      ⟨msg, md, auth, addr, hm, hmd, ha, haddr, hne, hsig⟩ |
      ⟨msg, md, auth, addr, sig, hm, hmd, ha, haddr, hne, hsig, hsne, hrec⟩
    · simp [ServiceAgent.validate_signature, h]
    · simp [ServiceAgent.validate_signature, hm, hmd]
    · simp [ServiceAgent.validate_signature, hm, hmd, ha]
    · rcases haddr with h | h <;>
        simp [ServiceAgent.validate_signature, hm, hmd, ha, h]
    · rcases hsig with h | h <;>
        simp [ServiceAgent.validate_signature, hm, hmd, ha, haddr, hne, h]
    · simp [ServiceAgent.validate_signature, hm, hmd, ha, haddr, hne, hsig, hsne, hrec]
  refine ⟨hval, (ServiceAgent.validate_signature recover true p).2, ?_⟩
  unfold ServiceAgent.on_send_task
  have : ServiceAgent.validate_signature recover true p =
      (false, (ServiceAgent.validate_signature recover true p).2) := by
    rw [← hval]
  rw [this]
  rfl

/-- A request with no auth metadata at all. -/
def noAuthParams : TaskSendParams :=
  { id := "task-1", sessionId := "s", message := none }

/-- Witness for C8: a request with no message metadata is rejected with a
structured RPC error. -/
theorem bad_auth_yields_rpc_error_witness :
    (ServiceAgent.validate_signature recoverTest true noAuthParams).1 = false ∧
    ∃ m, ServiceAgent.on_send_task recoverTest true true disconnectedEnv
        (some "0xAgent") true (RpcOutcome.taskResult demoTask) noAuthParams =
        .rpcError ("Signature verification failed: " ++ m) :=
  bad_auth_yields_rpc_error recoverTest true disconnectedEnv (some "0xAgent")
    (RpcOutcome.taskResult demoTask) noAuthParams (Or.inl rfl)

/-- The payload of one item yielded by `AgentWithTaskManager.stream`, as
inspected by `_stream_generator`: a dict carrying
`content.response.result` (whose `json.loads` either succeeds,
`parseOk = true`, or raises), some other dict, or a plain string. -/
inductive ItemContent
  | respResult (parseOk : Bool)
  | plainDict
  | text (s : String)
deriving DecidableEq, Repr

/-- One item yielded by the agent stream. -/
structure StreamItem where
  complete : Bool
  content : ItemContent
deriving DecidableEq, Repr

/-- One `SendTaskStreamingResponse` emitted by `_stream_generator`:
a `TaskStatusUpdateEvent`, a `TaskArtifactUpdateEvent`, or an
`InternalError` response from the enclosing `except` handler. -/
inductive StreamEvent
  | statusUpdate (state : TaskState) (final : Bool)
  | artifactUpdate
  | errorResponse
deriving DecidableEq, Repr

/-- Whether an event is a status update carrying `final=true`. -/
def isFinalEvent : StreamEvent → Bool
  | .statusUpdate _ true => true
  | _ => false

namespace ServiceAgent

/-- The task state `_stream_generator` selects for a completed item
(task_manager.py lines 316-332): `INPUT_REQUIRED` when the content is a
dict carrying `response.result`, else `COMPLETED`. -/
def completeState : ItemContent → TaskState
  | .respResult _ => .inputRequired
  | .plainDict => .completed
  | .text _ => .completed

/-- Embeds `AgentTaskManager._stream_generator` (task_manager.py lines
302-377) as the list of events it emits, as a function of the items the
agent stream yields.  `raisesAfter` models the agent stream itself
raising after its last yielded item; the generator's `except` then emits
one `InternalError` response.  A `json.loads` failure on a
`response.result` item is caught the same way.  On a completed item the
generator yields a non-final status update, the artifact event, then the
final status update, and `break`s, so later items are never consumed. -/
def stream_generator : List StreamItem → Bool → List StreamEvent
  | [], raisesAfter => if raisesAfter then [.errorResponse] else []
  | item :: rest, raisesAfter =>
    if !item.complete then
      .statusUpdate .working false :: stream_generator rest raisesAfter
    else
      match item.content with
      | .respResult false => [.errorResponse]
      | c =>
        [.statusUpdate (completeState c) false, .artifactUpdate,
         .statusUpdate (completeState c) true]

end ServiceAgent

/-- C6 counterexample: an agent stream that ends without a completion
item (here: one working update, then exhaustion) produces an event
stream with no `final=true` status update at all, so the stream does not
terminate with exactly one final event. -/
theorem stream_generator_no_final_event :
    ¬ ((ServiceAgent.stream_generator
        [{ complete := false, content := ItemContent.text "wait" }] false).countP
        (fun e => isFinalEvent e) = 1) := by
  decide

/-- The agent stream yields a completion item before exhausting, and the
first such item's payload parses (no `json.loads` exception). -/
def firstCompleteOk : List StreamItem → Bool
  | [] => false
  | item :: rest =>
    if item.complete then
      match item.content with
      | .respResult false => false
      | _ => true
    else firstCompleteOk rest

/-- C6 amended: whenever the agent stream yields a completion item whose
payload parses, the event stream emitted by `_stream_generator` contains
exactly one status-update event carrying `final=true`, it is the very
last event, and no events are emitted after it; but a stream that ends
(or raises) before any completion item emits no final event at all. -/
theorem stream_generator_single_final (items : List StreamItem) (raisesAfter : Bool)
    (h : firstCompleteOk items = true) :
    ∃ pre s, ServiceAgent.stream_generator items raisesAfter =
        pre ++ [StreamEvent.statusUpdate s true] ∧
      (∀ e ∈ pre, isFinalEvent e = false) ∧
      (ServiceAgent.stream_generator items raisesAfter).countP
        (fun e => isFinalEvent e) = 1 := by
  induction items with
  | nil => simp [firstCompleteOk] at h
  | cons item rest ih =>
    by_cases hc : item.complete = true
    · cases hcontent : item.content with
      | respResult pok =>
        cases pok with
        | false =>
          rw [firstCompleteOk, if_pos hc, hcontent] at h
          simp at h
        | true =>
          have hstep : ServiceAgent.stream_generator (item :: rest) raisesAfter =
              [.statusUpdate .inputRequired false, .artifactUpdate,
               .statusUpdate .inputRequired true] := by
            simp [ServiceAgent.stream_generator, hc, hcontent,
              ServiceAgent.completeState]
          refine ⟨[.statusUpdate .inputRequired false, .artifactUpdate],
            .inputRequired, ?_, ?_, ?_⟩
          · rw [hstep]; rfl
          · intro e he; fin_cases he <;> rfl
          · rw [hstep]; decide
      | plainDict =>
        have hstep : ServiceAgent.stream_generator (item :: rest) raisesAfter =
            [.statusUpdate .completed false, .artifactUpdate,
             .statusUpdate .completed true] := by
          simp [ServiceAgent.stream_generator, hc, hcontent,
            ServiceAgent.completeState]
        refine ⟨[.statusUpdate .completed false, .artifactUpdate],
          .completed, ?_, ?_, ?_⟩
        · rw [hstep]; rfl
        · intro e he; fin_cases he <;> rfl
        · rw [hstep]; decide
      | text str =>
        have hstep : ServiceAgent.stream_generator (item :: rest) raisesAfter =
            [.statusUpdate .completed false, .artifactUpdate,
             .statusUpdate .completed true] := by
          simp [ServiceAgent.stream_generator, hc, hcontent,
            ServiceAgent.completeState]
        refine ⟨[.statusUpdate .completed false, .artifactUpdate],
          .completed, ?_, ?_, ?_⟩
        · rw [hstep]; rfl
        · intro e he; fin_cases he <;> rfl
        · rw [hstep]; decide
    · rw [firstCompleteOk, if_neg hc] at h
      obtain ⟨pre, s, heq, hpre, hcount⟩ := ih h
      have hstep : ServiceAgent.stream_generator (item :: rest) raisesAfter =
          .statusUpdate .working false :: ServiceAgent.stream_generator rest raisesAfter := by
        simp [ServiceAgent.stream_generator, hc]
      refine ⟨.statusUpdate .working false :: pre, s, ?_, ?_, ?_⟩
      · rw [hstep, heq]; rfl
      · intro e he
        rcases List.mem_cons.mp he with rfl | he
        · rfl
        · exact hpre e he
      · rw [hstep, List.countP_cons, hcount]
        rfl

/-- Witness for the amended C6: a stream with one working update and one
completed text item ends with exactly one final status update. -/
theorem stream_generator_single_final_witness :
    ∃ pre s, ServiceAgent.stream_generator
        [{ complete := false, content := ItemContent.text "wait" },
         { complete := true, content := ItemContent.text "done" }] false =
        pre ++ [StreamEvent.statusUpdate s true] ∧
      (∀ e ∈ pre, isFinalEvent e = false) ∧
      (ServiceAgent.stream_generator
        [{ complete := false, content := ItemContent.text "wait" },
         { complete := true, content := ItemContent.text "done" }] false).countP
        (fun e => isFinalEvent e) = 1 :=
  stream_generator_single_final
    [{ complete := false, content := ItemContent.text "wait" },
     { complete := true, content := ItemContent.text "done" }] false (by decide)

/-- Python's substring test `needle in hay` on character lists. -/
def containsSub : List Char → List Char → Bool
  | needle, [] => needle.isEmpty
  | needle, c :: rest => needle.isPrefixOf (c :: rest) || containsSub needle rest

namespace FoodAgent

/-- One entry of the `RESTAURANTS` sample database (agent.py lines
27-63).  Ratings are stored in tenths (the source's `4.8` becomes `48`)
to keep the embedding in exact arithmetic; all source ratings have one
decimal digit, so comparisons are preserved. -/
structure Restaurant where
  name : String
  location : String
  cuisine : String
  price_range : String
  rating : Nat
deriving DecidableEq, Repr

/-- The static restaurant database, keyed by cuisine category. -/
def RESTAURANTS : List (String × List Restaurant) :=
  [("pizza",
    [{ name := "Cheese Board Pizza", location := "Berkeley", cuisine := "Pizza", price_range := "$$", rating := 48 },
     { name := "Zachary\x27s Chicago Pizza", location := "Oakland", cuisine := "Deep Dish Pizza", price_range := "$$", rating := 47 },
     { name := "Pizza Hacker", location := "San Francisco", cuisine := "Artisan Pizza", price_range := "$$", rating := 45 },
     { name := "Pizzeria Delfina", location := "San Francisco", cuisine := "Italian Pizza", price_range := "$$$", rating := 46 },
     { name := "A16", location := "San Francisco", cuisine := "Neapolitan Pizza", price_range := "$$$", rating := 44 }]),
   ("chinese",
    [{ name := "China Live", location := "San Francisco", cuisine := "Modern Chinese", price_range := "$$$", rating := 43 },
     { name := "Mister Jiu\x27s", location := "San Francisco", cuisine := "Cantonese", price_range := "$$$", rating := 46 },
     { name := "Yank Sing", location := "San Francisco", cuisine := "Dim Sum", price_range := "$$$", rating := 44 },
     { name := "Great China", location := "Berkeley", cuisine := "Northern Chinese", price_range := "$$", rating := 45 },
     { name := "Chef Zhao Kitchen", location := "Palo Alto", cuisine := "Sichuan", price_range := "$$", rating := 44 }]),
   ("mexican",
    [{ name := "La Taqueria", location := "San Francisco", cuisine := "Tacos", price_range := "$$", rating := 46 },
     { name := "Nopalito", location := "San Francisco", cuisine := "Organic Mexican", price_range := "$$", rating := 45 },
     { name := "Comal", location := "Berkeley", cuisine := "Contemporary Mexican", price_range := "$$$", rating := 44 },
     { name := "Tacos Sinaloa", location := "Oakland", cuisine := "Street Tacos", price_range := "$", rating := 47 },
     { name := "Tacolicious", location := "Palo Alto", cuisine := "Modern Mexican", price_range := "$$", rating := 43 }]),
   ("indian",
    [{ name := "Vik\x27s Chaat", location := "Berkeley", cuisine := "Indian Street Food", price_range := "$", rating := 45 },
     { name := "DOSA", location := "San Francisco", cuisine := "South Indian", price_range := "$$$", rating := 43 },
     { name := "Amber India", location := "Mountain View", cuisine := "North Indian", price_range := "$$$", rating := 44 },
     { name := "Curry Up Now", location := "San Mateo", cuisine := "Indian Fusion", price_range := "$$", rating := 42 },
     { name := "Chapati & Chutney", location := "Sunnyvale", cuisine := "Authentic Indian", price_range := "$$", rating := 46 }]),
   ("japanese",
    [{ name := "Rintaro", location := "San Francisco", cuisine := "Izakaya", price_range := "$$$", rating := 47 },
     { name := "Iyasare", location := "Berkeley", cuisine := "Modern Japanese", price_range := "$$$", rating := 45 },
     { name := "Kiraku", location := "Berkeley", cuisine := "Izakaya", price_range := "$$", rating := 46 },
     { name := "Marufuku Ramen", location := "San Francisco", cuisine := "Ramen", price_range := "$$", rating := 48 },
     { name := "Gintei", location := "San Mateo", cuisine := "Sushi", price_range := "$$$", rating := 44 }])]

/-- The dict keys of `RESTAURANTS`. -/
def categoryKeys : List String := RESTAURANTS.map Prod.fst

/-- Python's `RESTAURANTS[category]` on a key known to be present
(`getD []` is never hit on the keys the search uses). -/
def lookupCategory (k : String) : List Restaurant :=
  (RESTAURANTS.lookup k).getD []

/-- The location filter of `search_restaurants` (agent.py line 95):
skipped for a falsy argument, else a case-insensitive substring test. -/
def locationMatches (location : Option String) (r : Restaurant) : Bool :=
  match location with
  | none => true
  | some l => if l = "" then true else containsSub (lowerStr l).data (lowerStr r.location).data

/-- The price filter of `search_restaurants` (agent.py line 99): skipped
for a falsy argument, else exact equality. -/
def priceMatches (price_range : Option String) (r : Restaurant) : Bool :=
  match price_range with
  | none => true
  | some p => if p = "" then true else p == r.price_range

/-- The category selection of `search_restaurants` (agent.py lines
83-88): a truthy cuisine naming a known category restricts the search to
that category, anything else searches all categories. -/
def searchCategories (cuisine : Option String) : List String :=
  match cuisine with
  | none => categoryKeys
  | some c =>
    if (c != "") && categoryKeys.contains (lowerStr c) then [lowerStr c]
    else categoryKeys

/-- Stable descending insertion by rating: the new element goes in front
of the first element whose rating is not larger. -/
def insertByRating (r : Restaurant) : List Restaurant → List Restaurant
  | [] => [r]
  | x :: xs => if x.rating ≤ r.rating then r :: x :: xs else x :: insertByRating r xs

/-- Python's stable `results.sort(key=rating, reverse=True)`
(agent.py line 106). -/
def sortByRatingDesc (l : List Restaurant) : List Restaurant :=
  l.foldr insertByRating []

/-- Embeds `search_restaurants` (agent.py lines 66-107): collect the
restaurants of the selected categories that pass the location and price
filters, then sort by rating, highest first. -/
def search_restaurants (cuisine location price_range : Option String) : List Restaurant :=
  sortByRatingDesc
    (((searchCategories cuisine).map lookupCategory).flatten.filter
      (fun r => locationMatches location r && priceMatches price_range r))

theorem mem_insertByRating (a r : Restaurant) (l : List Restaurant) :
    a ∈ insertByRating r l ↔ a = r ∨ a ∈ l := by
  induction l with
  | nil => simp [insertByRating]
  | cons x xs ih =>
    rw [insertByRating]
    split
    · simp
    · simp only [List.mem_cons, ih]
      tauto

theorem sorted_insertByRating (r : Restaurant) (l : List Restaurant)
    (h : l.Pairwise (fun a b => b.rating ≤ a.rating)) :
    (insertByRating r l).Pairwise (fun a b => b.rating ≤ a.rating) := by
  induction l with
  | nil => simp [insertByRating]
  | cons x xs ih =>
    rw [insertByRating]
    rcases List.pairwise_cons.mp h with ⟨hx, hxs⟩
    split
    · refine List.pairwise_cons.mpr ⟨?_, h⟩
      intro b hb
      rcases List.mem_cons.mp hb with rfl | hb
      · assumption
      · exact le_trans (hx b hb) (by assumption)
    · refine List.pairwise_cons.mpr ⟨?_, ih hxs⟩
      intro b hb
      rcases (mem_insertByRating b r xs).mp hb with rfl | hb
      · exact le_of_lt (lt_of_not_le (by assumption))
      · exact hx b hb

theorem sorted_sortByRatingDesc (l : List Restaurant) :
    (sortByRatingDesc l).Pairwise (fun a b => b.rating ≤ a.rating) := by
  induction l with
  | nil => exact List.Pairwise.nil
  | cons x xs ih => exact sorted_insertByRating x _ ih

theorem mem_sortByRatingDesc (a : Restaurant) (l : List Restaurant) :
    a ∈ sortByRatingDesc l ↔ a ∈ l := by
  induction l with
  | nil => simp [sortByRatingDesc]
  | cons x xs ih =>
    show a ∈ insertByRating x (sortByRatingDesc xs) ↔ _
    rw [mem_insertByRating, ih]
    simp

end FoodAgent

/-- C9: for every combination of cuisine, location and price filters,
`search_restaurants` returns a list sorted by rating in non-increasing
order in which every element passes every supplied (truthy) filter: the
location argument is a case-insensitive substring of the restaurant's
location, the price argument equals the restaurant's price range
exactly, and when the cuisine names a known category every result comes
from that category's list. -/
theorem search_restaurants_sorted_and_filtered
    (cuisine location price_range : Option String) :
    (FoodAgent.search_restaurants cuisine location price_range).Pairwise
      (fun a b => b.rating ≤ a.rating) ∧
    ∀ r ∈ FoodAgent.search_restaurants cuisine location price_range,
      (∀ l, location = some l → l ≠ "" →
        containsSub (lowerStr l).data (lowerStr r.location).data = true) ∧
      (∀ p, price_range = some p → p ≠ "" → p = r.price_range) ∧
      (∀ c, cuisine = some c → c ≠ "" →
        FoodAgent.categoryKeys.contains (lowerStr c) = true →
        r ∈ FoodAgent.lookupCategory (lowerStr c)) := by
  constructor
  · exact FoodAgent.sorted_sortByRatingDesc _
  · intro r hr
    rw [FoodAgent.search_restaurants, FoodAgent.mem_sortByRatingDesc,
      List.mem_filter] at hr
    obtain ⟨hmem, hpass⟩ := hr
    rw [Bool.and_eq_true] at hpass
    obtain ⟨hloc, hprice⟩ := hpass
    refine ⟨?_, ?_, ?_⟩
    · intro l hl hlne
      subst hl
      rw [FoodAgent.locationMatches, if_neg hlne] at hloc
      exact hloc
    · intro p hp hpne
      subst hp
      rw [FoodAgent.priceMatches, if_neg hpne] at hprice
      exact eq_of_beq hprice
    · intro c hc hcne hknown
      subst hc
      have hcats : FoodAgent.searchCategories (some c) = [lowerStr c] := by
        rw [FoodAgent.searchCategories, if_pos]
        rw [Bool.and_eq_true, hknown]
        refine ⟨?_, rfl⟩
        simpa using hcne
      rw [hcats] at hmem
      simpa using hmem

/-- The top-rated Berkeley pizza entry of the sample database. -/
def cheeseBoard : FoodAgent.Restaurant :=
  { name := "Cheese Board Pizza", location := "Berkeley", cuisine := "Pizza",
    price_range := "$$", rating := 48 }

/-- Witness for C9 at concrete filters: searching pizza places in
Berkeley at price range double-dollar yields the Cheese Board entry, and
the supplied price filter holds of it exactly. -/
theorem search_restaurants_sorted_and_filtered_witness :
    ("$$" : String) = cheeseBoard.price_range :=
  (((search_restaurants_sorted_and_filtered (some "pizza") (some "Berkeley")
      (some "$$")).2 cheeseBoard (by decide)).2.1) "$$" rfl (by decide)

namespace FoodAgent

/-- An order form as returned by `create_order_form` (agent.py lines
144-152). -/
structure OrderForm where
  order_id : String
  restaurant : String
  items : String
  delivery_time : String
  delivery_address : String
  special_instructions : String
  date : String
deriving DecidableEq, Repr

/-- Python's `d if not v else v` defaulting on an optional string
argument (falsy = `None` or empty). -/
def orPlaceholder (v : Option String) (d : String) : String :=
  match v with
  | none => d
  | some s => if s = "" then d else s

/-- Embeds `create_order_form` (agent.py lines 110-152).  `rand` models
`random.randint(1000000, 9999999)`, `currentDate` today's date and
`defaultTime` the now-plus-30-minutes default; the generated id is added
to the module-level `order_ids` set, threaded here as a list. -/
def create_order_form (order_ids : List String) (rand : Nat)
    (currentDate defaultTime : String)
    (restaurant items delivery_time delivery_address special_instructions :
      Option String) : List String × OrderForm :=
  let oid := "order_" ++ toString rand
  (order_ids ++ [oid],
   { order_id := oid
     restaurant := orPlaceholder restaurant "<restaurant name>"
     items := orPlaceholder items "<food items>"
     delivery_time := orPlaceholder delivery_time defaultTime
     delivery_address := orPlaceholder delivery_address "<delivery address>"
     special_instructions :=
       match special_instructions with
       | none => "none"
       | some s => s
     date := currentDate })

/-- The outcome of `_complete_task_on_blockchain` as observed by
`place_order`: a successful completion dict, `None` (no session id or no
private key in the environment), or a raised exception. -/
inductive ChainOutcome
  | success (txHash contractAddr : String) (uuid blockNumber gasUsed : Nat)
  | noResult
  | raised (msg : String)
deriving DecidableEq, Repr

/-- The `blockchain_completion` value `place_order` attaches. -/
inductive BlockchainCompletionInfo
  | completed (txHash contractAddr : String) (uuid blockNumber gasUsed : Nat)
  | failed (err : String)
deriving DecidableEq, Repr

/-- The dict `place_order` returns. -/
structure OrderResponse where
  order_id : String
  status : String
  blockchain_completion : Option BlockchainCompletionInfo
  estimated_delivery : Option String
  tracking_url : Option String
deriving DecidableEq, Repr

/-- Embeds `place_order` (agent.py lines 265-310).  An unknown order id
returns the invalid-order dict.  For an issued id the function always
evaluates `blockchain_result[\x27transaction_hash\x27]` on the
tracking-url line (line 308), so it only returns when the blockchain
completion succeeded; when `_complete_task_on_blockchain` returned
`None` that line raises `TypeError`, and when it raised (so the `except`
arm ran and `blockchain_result` was never bound) it raises `NameError` —
despite the comment on line 299, "Log error but don\x27t fail the
order".  `formattedTime` models the randomized estimated delivery
time. -/
def place_order (order_ids : List String) (order_id : String)
    (chain : ChainOutcome) (formattedTime : String) :
    Except String OrderResponse :=
  if !(order_ids.contains order_id) then
    .ok { order_id := order_id
          status := "Error: Invalid order_id."
          blockchain_completion := none
          estimated_delivery := none
          tracking_url := none }
  else
    match chain with
    | .success tx ca uuid bn gu =>
      .ok { order_id := order_id
            status := "confirmed"
            blockchain_completion := some (.completed tx ca uuid bn gu)
            estimated_delivery := some formattedTime
            tracking_url := some ("https://sepolia.basescan.org/tx/" ++ tx) }
    | .noResult => .error "TypeError: NoneType object is not subscriptable"
    | .raised _ => .error "NameError: name blockchain_result is not defined"

end FoodAgent

/-- C3: evaluating the code at the failing input.  The id
`order_1234567` IS issued by `create_order_form`, yet `place_order` on
it raises (`NameError` from line 308) instead of returning a confirmed
order when the blockchain completion step raised — for example when the
chain is unreachable.  The second conjunct shows the id coming from the
order-form builder; the third shows the never-issued branch does return
the invalid-order error dict. -/
theorem place_order_blockchain_failure_raises :
    FoodAgent.place_order ["order_1234567"] "order_1234567"
      (FoodAgent.ChainOutcome.raised "connection refused") "07:30 PM" =
      .error "NameError: name blockchain_result is not defined" ∧
    (FoodAgent.create_order_form [] 1234567 "2026-10-12" "19:00"
      none none none none none).1 = ["order_1234567"] ∧
    (FoodAgent.place_order ["order_1234567"] "order_9999999"
      (FoodAgent.ChainOutcome.raised "connection refused") "07:30 PM").map
      (fun resp => resp.status) = .ok "Error: Invalid order_id." := by
  refine ⟨rfl, ?_, rfl⟩
  decide

namespace HostAgentM

/-- A part of an A2A message or artifact as consumed by `convert_part`
(host_agent.py lines 529-548). -/
inductive APart
  | text (s : String)
  | dataPart
  | filePart (fileId : String)
  | other (t : String)
deriving DecidableEq, Repr

/-- An element of the response list `send_task` / `confirm_task` return:
converted parts, or the extra `blockchain_confirmation` dict only
`confirm_task` appends (host_agent.py lines 410-418). -/
inductive RPart
  | text (s : String)
  | dataVal
  | fileRef (fileId : String)
  | blockchainConfirm (txHash contractAddr : String) (uuid : Nat)
deriving DecidableEq, Repr

/-- Embeds `convert_part` (host_agent.py lines 529-548): text and data
pass through, a file part is saved as an artifact and replaced by a
file-id data part, anything else becomes an unknown-type string. -/
def convert_part : APart → RPart
  | .text s => .text s
  | .dataPart => .dataVal
  | .filePart fileId => .fileRef fileId
  | .other t => .text ("Unknown type: " ++ t)

/-- The remote task returned by `client.send_task`, as far as the host
inspects it: final state, optional status-message parts, artifacts. -/
structure RemoteTask where
  id : String
  state : TaskState
  statusMessageParts : Option (List APart)
  artifacts : Option (List (List APart))
deriving DecidableEq, Repr

/-- The environment of one delegation call: which lookups succeed, the
chain connection, the outcome of the confirm-transaction submission
(build, sign, send, wait-for-receipt), the configured keys and
addresses, the session state, and the remote agent's reply. -/
structure HostEnv where
  agentKnown : Bool
  hasClient : Bool
  connected : Bool
  txSubmit : Except String String
  privateKey : Option String
  remoteAgentAddress : String
  contractAddress : String
  sessionId : String
  remoteTask : RemoteTask

/-- The response parts built from the remote task (status-message parts
then all artifact parts), shared by both call shapes (host_agent.py
lines 399-407 and 510-518). -/
def taskResponseParts (t : RemoteTask) : List RPart :=
  (match t.statusMessageParts with
   | none => []
   | some ps => ps.map convert_part) ++
  (match t.artifacts with
   | none => []
   | some arts => (arts.map (fun ps => ps.map convert_part)).flatten)

/-- Embeds `HostAgent.send_task` (host_agent.py lines 422-519) as a
function of the call environment: raises (`Except.error`) for an unknown
agent, a missing client, or a remote task that ended canceled or failed;
otherwise returns the converted response parts.  Signature metadata
construction mutates nothing the return value depends on. -/
def send_task (env : HostEnv) : Except String (List RPart) :=
  if !env.agentKnown then .error "Agent not found"
  else if !env.hasClient then .error "Client not available"
  else if env.remoteTask.state = TaskState.canceled then
    .error "task is cancelled"
  else if env.remoteTask.state = TaskState.failed then
    .error "task failed"
  else .ok (taskResponseParts env.remoteTask)

/-- Embeds `HostAgent.confirm_task` (host_agent.py lines 229-420).  The
source wraps the connection attempt and the transaction submission in
`try/except` blocks whose handlers `return await self.send_task(...)`;
an unreachable chain or a failed submission therefore falls back to the
plain delegation.  With a confirmed transaction the same response is
produced with the `blockchain_confirmation` dict appended.  A missing
private key raises (line 297), as does an invalid-hex session id (the
`int` on line 293, outside any handler). -/
def confirm_task (env : HostEnv) : Except String (List RPart) :=
  if !env.agentKnown then .error "Agent not found"
  else if !env.hasClient then .error "Client not available"
  else if env.remoteAgentAddress = "" then
    .error "Could not determine ethereum address for remote agent"
  else if !env.connected then send_task env
  else
    match taskUuidOfSession env.sessionId with
    | none => .error "invalid literal for int() with base 16"
    | some uuid =>
      match env.privateKey with
      | none => .error "Host Agent has no private key configured, cannot perform blockchain confirmation"
      | some _ =>
        match env.txSubmit with
        | .error _ => send_task env
        | .ok txHashHex =>
          if env.remoteTask.state = TaskState.canceled then
            .error "task is cancelled"
          else if env.remoteTask.state = TaskState.failed then
            .error "task failed"
          else
            .ok (taskResponseParts env.remoteTask ++
              [.blockchainConfirm txHashHex env.contractAddress uuid])

/-- Whether a response element is the `blockchain_confirmation` dict. -/
def isBlockchainConfirm : RPart → Bool
  | .blockchainConfirm _ _ _ => true
  | _ => false

theorem convert_part_not_blockchain (p : APart) :
    isBlockchainConfirm (convert_part p) = false := by
  cases p <;> rfl

theorem taskResponseParts_no_blockchain (t : RemoteTask) :
    ∀ pr ∈ taskResponseParts t, isBlockchainConfirm pr = false := by
  intro pr hpr
  rw [taskResponseParts, List.mem_append] at hpr
  rcases hpr with hpr | hpr
  · rcases ht : t.statusMessageParts with _ | ps <;> rw [ht] at hpr
    · simp at hpr
    · obtain ⟨p, _, rfl⟩ := List.mem_map.mp hpr
      exact convert_part_not_blockchain p
  · rcases ht : t.artifacts with _ | arts <;> rw [ht] at hpr
    · simp at hpr
    · rw [List.mem_flatten] at hpr
      obtain ⟨l, hl, hprl⟩ := hpr
      obtain ⟨ps, _, rfl⟩ := List.mem_map.mp hl
      obtain ⟨p, _, rfl⟩ := List.mem_map.mp hprl
      exact convert_part_not_blockchain p

end HostAgentM

/-- C7: when the on-chain confirmation step of `confirm_task` fails —
the chain endpoint is unreachable, or the confirm-transaction submission
raises — `confirm_task` returns exactly what the plain `send_task`
delegation returns for the same call, and a `send_task` response never
contains a blockchain-confirmation element.  The hypothesis on
`remoteAgentAddress` reflects that the source always resolves it to a
non-empty value (a hardcoded environment default, host_agent.py line
269). -/
theorem confirm_task_fallback (env : HostAgentM.HostEnv)
    (hra : env.remoteAgentAddress ≠ "") :
    (env.connected = false →
      HostAgentM.confirm_task env = HostAgentM.send_task env) ∧
    (∀ e uuid key, env.connected = true →
      HostAgentM.taskUuidOfSession env.sessionId = some uuid →
      env.privateKey = some key →
      env.txSubmit = .error e →
      HostAgentM.confirm_task env = HostAgentM.send_task env) ∧
    (∀ l, HostAgentM.send_task env = .ok l →
      ∀ pr ∈ l, HostAgentM.isBlockchainConfirm pr = false) := by
  refine ⟨?_, ?_, ?_⟩
  · intro hconn
    cases hak : env.agentKnown with
    | false => simp [HostAgentM.confirm_task, HostAgentM.send_task, hak]
    | true =>
      cases hhc : env.hasClient with
      | false => simp [HostAgentM.confirm_task, HostAgentM.send_task, hak, hhc]
      | true => simp [HostAgentM.confirm_task, hak, hhc, hra, hconn]
  · intro e uuid key hconn huuid hkey htx
    cases hak : env.agentKnown with
    | false => simp [HostAgentM.confirm_task, HostAgentM.send_task, hak]
    | true =>
      cases hhc : env.hasClient with
      | false => simp [HostAgentM.confirm_task, HostAgentM.send_task, hak, hhc]
      | true =>
        simp [HostAgentM.confirm_task, hak, hhc, hra, hconn, huuid, hkey, htx]
  · intro l hl pr hpr
    rw [HostAgentM.send_task] at hl
    split_ifs at hl
    all_goals
      first
      | exact Except.noConfusion hl
      | (injection hl with h
         subst h
         exact HostAgentM.taskResponseParts_no_blockchain _ pr hpr)

/-- A delegation environment with a known agent, a live client, an
unreachable chain endpoint, and a completed remote reply. -/
def fallbackEnv : HostAgentM.HostEnv :=
  { agentKnown := true
    hasClient := true
    connected := false
    txSubmit := .error "not connected"
    privateKey := some "0xkey"
    remoteAgentAddress := "0x70997970C51812dc3A010C7d01b50e0d17dc79C8"
    contractAddress := "0x5FbDB2315678afecb367f032d93F642f64180aa3"
    sessionId := "11111111-1111-1111-1111-111111111111"
    remoteTask :=
      { id := "t-1"
        state := TaskState.completed
        statusMessageParts := some [HostAgentM.APart.text "ok"]
        artifacts := none } }

/-- Witness for C7: with the chain unreachable, `confirm_task` produces
exactly the `send_task` response. -/
theorem confirm_task_fallback_witness :
    HostAgentM.confirm_task fallbackEnv = HostAgentM.send_task fallbackEnv :=
  (confirm_task_fallback fallbackEnv (by decide)).1 rfl
